/-
Verification of the payu-mcp-server core against its specification.

Shallow embedding of the Python sources:
  * src/utils/utils.py        — validate_email, validate_phone, mask_email, mask_phone
  * src/utils/token_manager.py — PayUTokenManager singleton attributes
  * src/utils/network.py      — refresh_token, ensure_valid_token,
                                make_request_with_direct_token
  * src/tools/payment_link.py — parse_customer_response, fetch_customers,
                                create_payment_link, create_payment_link_request

Python `None`-able values are `Option`s or an explicit JSON value type; code
that can raise an uncaught exception is embedded in `Except PyErr`; the HTTP
layer is an oracle supplying the response of each outbound call (the dispatcher
`make_request` collapses every transport failure to `None`, so it is modelled
as `Option` of a parsed JSON object, matching its declared return type
`Optional[Dict]`).
-/
import Mathlib

namespace PayU

/-- Uncaught Python exceptions relevant to the embedded code.  The message
strings are informal (they need not reproduce CPython's wording). -/
inductive PyErr where
  | typeError (msg : String)
  | valueError (msg : String)
  | attributeError (name : String)
deriving DecidableEq, Repr

instance {ε α : Type} [DecidableEq ε] [DecidableEq α] : DecidableEq (Except ε α) :=
  fun x y =>
    match x, y with
    | .error u, .error v => decidable_of_iff (u = v) (by simp)
    | .error _, .ok _ => Decidable.isFalse (by simp)
    | .ok _, .error _ => Decidable.isFalse (by simp)
    | .ok u, .ok v => decidable_of_iff (u = v) (by simp)

/-- JSON values as produced by `response.json()`. -/
inductive JVal where
  | null
  | str (s : String)
  | num (n : Int)
  | bool (b : Bool)
  | arr (xs : List JVal)
  | obj (fields : List (String × JVal))

/-- Python truthiness of a string (`if s:`). -/
def truthyStr (s : String) : Bool := s != ""

/-- Python truthiness of an optional string (`None` and `""` are falsy). -/
def truthyOpt : Option String → Bool
  | Option.none => false
  | some s => s != ""

/-- `v.isNull` is true exactly for JSON `null` (Python `None`). -/
def JVal.isNull : JVal → Bool
  | .null => true
  | _ => false

/-- Python `str()` / f-string rendering of a JSON value.  Container values
(`arr`, `obj`) would render as their Python repr; no code path exercised by a
claim reaches them, so a fixed placeholder is used. -/
def pyStr : JVal → String
  | .null => "None"
  | .str s => s
  | .num n => toString n
  | .bool b => if b then "True" else "False"
  | .arr _ => "<list>"
  | .obj _ => "<dict>"

/-! ## src/utils/utils.py -/

/-- ASCII decimal digit, as written literally (`0-9`) inside the regex
character classes of the email pattern. -/
def isAsciiDigit (c : Char) : Bool := '0' ≤ c && c ≤ '9'

/-- The code-point ranges of Unicode general category Nd (decimal digits),
as of Unicode 15.0 — 680 code points in runs of ten (plus the five
mathematical-digit runs at 1D7CE–1D7FF).  Python's `re` on a `str` pattern
without `re.ASCII` matches `\d` against exactly this category; the precise
table tracks the Unicode version bundled with the Python build. -/
def ndRanges : List (Nat × Nat) :=
  [(0x0030, 0x0039), (0x0660, 0x0669), (0x06F0, 0x06F9), (0x07C0, 0x07C9),
   (0x0966, 0x096F), (0x09E6, 0x09EF), (0x0A66, 0x0A6F), (0x0AE6, 0x0AEF),
   (0x0B66, 0x0B6F), (0x0BE6, 0x0BEF), (0x0C66, 0x0C6F), (0x0CE6, 0x0CEF),
   (0x0D66, 0x0D6F), (0x0DE6, 0x0DEF), (0x0E50, 0x0E59), (0x0ED0, 0x0ED9),
   (0x0F20, 0x0F29), (0x1040, 0x1049), (0x1090, 0x1099), (0x17E0, 0x17E9),
   (0x1810, 0x1819), (0x1946, 0x194F), (0x19D0, 0x19D9), (0x1A80, 0x1A89),
   (0x1A90, 0x1A99), (0x1B50, 0x1B59), (0x1BB0, 0x1BB9), (0x1C40, 0x1C49),
   (0x1C50, 0x1C59), (0xA620, 0xA629), (0xA8D0, 0xA8D9), (0xA900, 0xA909),
   (0xA9D0, 0xA9D9), (0xA9F0, 0xA9F9), (0xAA50, 0xAA59), (0xABF0, 0xABF9),
   (0xFF10, 0xFF19), (0x104A0, 0x104A9), (0x10D30, 0x10D39), (0x11066, 0x1106F),
   (0x110F0, 0x110F9), (0x11136, 0x1113F), (0x111D0, 0x111D9), (0x112F0, 0x112F9),
   (0x11450, 0x11459), (0x114D0, 0x114D9), (0x11650, 0x11659), (0x116C0, 0x116C9),
   (0x11730, 0x11739), (0x118E0, 0x118E9), (0x11950, 0x11959), (0x11C50, 0x11C59),
   (0x11D50, 0x11D59), (0x11DA0, 0x11DA9), (0x11F50, 0x11F59), (0x16A60, 0x16A69),
   (0x16AC0, 0x16AC9), (0x16B50, 0x16B59), (0x1D7CE, 0x1D7FF), (0x1E140, 0x1E149),
   (0x1E2F0, 0x1E2F9), (0x1E4F0, 0x1E4F9), (0x1E950, 0x1E959), (0x1FBF0, 0x1FBF9)]

/-- Python's `\d` on a `str` pattern: any Unicode decimal digit
(category Nd). -/
def isPyDigit (c : Char) : Bool :=
  ndRanges.any fun r => r.1 ≤ c.toNat && c.toNat ≤ r.2

/-- A digit in the regex class `[1-9]`. -/
def isDigit19 (c : Char) : Bool := '1' ≤ c && c ≤ '9'

/-- A letter in the regex class `[a-zA-Z]`. -/
def isAsciiAlpha (c : Char) : Bool := ('a' ≤ c && c ≤ 'z') || ('A' ≤ c && c ≤ 'Z')

/-- A character of the email local-part class `[a-zA-Z0-9._%+-]`. -/
def isLocalChar (c : Char) : Bool :=
  isAsciiAlpha c || isAsciiDigit c || c = '.' || c = '_' || c = '%' || c = '+' || c = '-'

/-- A character of the email domain class `[a-zA-Z0-9.-]`. -/
def isDomainChar (c : Char) : Bool :=
  isAsciiAlpha c || isAsciiDigit c || c = '.' || c = '-'

/-- Python's `$` anchor also matches just before a single trailing newline;
a full match against `pat$` therefore ignores one final `'\n'`. -/
def stripDollarNewline (l : List Char) : List Char :=
  if l.getLast? = some '\n' then l.dropLast else l

/-- Full match of `[1-9]\d{9,14}` against a character list: `[1-9]` is a
literal ASCII range, `\d` is any Unicode decimal digit. -/
def phoneDigitsMatch : List Char → Bool
  | [] => false
  | c :: cs => isDigit19 c && cs.all isPyDigit && decide (9 ≤ cs.length) && decide (cs.length ≤ 14)

/-- Full match of `\+?[1-9]\d{9,14}`: `[1-9]` cannot match `'+'`, so the
optional `+` is consumed exactly when the string starts with it. -/
def phoneCoreMatch : List Char → Bool
  | [] => false
  | c :: rest => if c = '+' then phoneDigitsMatch rest else phoneDigitsMatch (c :: rest)

/-- `re.match(r'^\+?[1-9]\d{9,14}$', s)` succeeding (a full match up to the
`$`-before-trailing-newline rule). -/
def phoneRegexMatch (l : List Char) : Bool :=
  phoneCoreMatch (stripDollarNewline l)

/-- utils.validate_phone: `phone and re.match(r'^\+?[1-9]\d{9,14}$', phone) is
not None`, read as a truth value (an empty string is falsy and short-circuits). -/
def validate_phone (phone : String) : Bool :=
  truthyStr phone && phoneRegexMatch phone.data

/-- Match of `[a-zA-Z0-9.-]+\.[a-zA-Z]{2,}` against the whole of `l`
(backtracking semantics: some split position works). -/
def emailDomainMatch (l : List Char) : Bool :=
  (List.range l.length).any fun i =>
    l.getD i ' ' = '.' && decide (1 ≤ i) && (l.take i).all isDomainChar
      && (l.drop (i + 1)).all isAsciiAlpha && decide (2 ≤ l.length - (i + 1))

/-- `re.match(r'^[a-zA-Z0-9._%+-]+@[a-zA-Z0-9.-]+\.[a-zA-Z]{2,}$', s)`
succeeding.  The local-part class excludes `'@'`, so the pattern's `@` matches
the first `'@'` of the string. -/
def emailRegexMatch (l : List Char) : Bool :=
  let core := stripDollarNewline l
  let localPart := core.takeWhile (· ≠ '@')
  decide (localPart.length < core.length) && !localPart.isEmpty
    && localPart.all isLocalChar && emailDomainMatch (core.drop (localPart.length + 1))

/-- utils.validate_email, read as a truth value. -/
def validate_email (email : String) : Bool :=
  truthyStr email && emailRegexMatch email.data

/-- Python `s.split('@')` on a character list. -/
def splitAtSign : List Char → List (List Char)
  | [] => [[]]
  | c :: rest =>
    if c = '@' then [] :: splitAtSign rest
    else
      match splitAtSign rest with
      | g :: gs => (c :: g) :: gs
      | [] => [[c]]

/-- A run of `n` asterisks (`'*' * n`). -/
def starRun (n : Nat) : List Char := List.replicate n '*'

/-- utils.mask_email.  `username, domain = email.split('@')` raises a
`ValueError` when the split does not yield exactly two parts (an email with
two or more `'@'`). -/
def mask_email (email : String) : Except PyErr String :=
  if email.data.contains '@' then
    match splitAtSign email.data with
    | [u, d] =>
      if 4 < u.length then
        .ok (String.mk (u.take 2 ++ starRun (u.length - 4) ++ u.drop (u.length - 2) ++ '@' :: d))
      else if 0 < u.length then
        .ok (String.mk (u.take 1 ++ starRun (u.length - 1) ++ '@' :: d))
      else .ok email
    | _ => .error (.valueError "unpacking email.split needs exactly 2 values")
  else .ok email

/-- utils.mask_phone (total: Python string slicing never raises here). -/
def mask_phone (phone : String) : String :=
  if 6 ≤ phone.length then
    String.mk (phone.data.take (phone.length / 2 - 2) ++ ['*', '*', '*', '*']
      ++ phone.data.drop (phone.length / 2 + 2))
  else phone

/-- `mask_email` applied to a JSON field value: `'@' in v` raises `TypeError`
on `None`; other non-string values are likewise embedded as a `TypeError`
(no claim exercises them). -/
def pyMaskEmail : JVal → Except PyErr String
  | .str s => mask_email s
  | .null => .error (.typeError "argument of type NoneType is not iterable")
  | _ => .error (.typeError "mask_email applied to a non-string value")

/-- `mask_phone` applied to a JSON field value: `len(v)` raises `TypeError`
on `None`; other non-string values are likewise embedded as a `TypeError`. -/
def pyMaskPhone : JVal → Except PyErr String
  | .str s => .ok (mask_phone s)
  | .null => .error (.typeError "object of type NoneType has no len")
  | _ => .error (.typeError "mask_phone applied to a non-string value")

/-! ## src/utils/token_manager.py and src/utils/network.py — session tokens

`PayUTokenManager.__new__` initializes exactly the attributes
`access_token = None`, `token_type = None`, `expires_at = 0`,
`client_id = os.getenv('CLIENT_ID')`, `client_secret = os.getenv('CLIENT_SECRET')`,
`mid = os.getenv('MERCHANT_ID')`.  The mutable session part is `TokenState`,
the read-only configuration part is `OAuthConfig`. -/

/-- Mutable session-token state held by the `PayUTokenManager` singleton. -/
structure TokenState where
  access_token : Option String
  token_type : Option String
  expires_at : Int
deriving DecidableEq, Repr

/-- OAuth client credentials read from the environment at startup. -/
structure OAuthConfig where
  client_id : Option String
  client_secret : Option String
deriving DecidableEq, Repr

/-- Outcome of the `httpx` POST to the identity-provider token endpoint, as
observed by `refresh_token`:
* `timeout` — `httpx.TimeoutException` (or a connection error) during the POST;
* `httpError s` — `response.raise_for_status()` raised on a non-2xx status;
* `badBody` — `response.json()` failed, or the decoded body is not a JSON
  object (so the first `token_data.get` raises before any assignment);
* `body a t e` — a decoded JSON object; `a`, `t`, `e` are the values of
  `access_token`, `token_type`, `expires_in` (`Option.none` when the key is
  missing; a non-numeric `expires_in` behaves like a missing one: the addition
  `int(time.time()) + expires_in` raises `TypeError`). -/
inductive TokenResponse where
  | timeout
  | httpError (status : Nat)
  | badBody
  | body (access_token : Option String) (token_type : Option String) (expires_in : Option Int)
deriving DecidableEq, Repr

/-- network.refresh_token (src/utils/network.py lines 38–94).  Returns the new
token state and the boolean result.  Mirrors the source order of effects: once
a JSON object body is obtained, `tm.access_token` and `tm.token_type` are
assigned (lines 70–71) before `tm.expires_at = int(time.time()) + expires_in`
(line 73); if `expires_in` is missing that addition raises `TypeError`, which
the generic `except Exception` handler turns into `False` — after the first
two assignments already happened.  The return value (line 87) is
`tm.access_token is not None`. -/
def refresh_token (cfg : OAuthConfig) (st : TokenState) (now : Int)
    (resp : TokenResponse) : TokenState × Bool :=
  if !truthyOpt cfg.client_id || !truthyOpt cfg.client_secret then (st, false)
  else
    match resp with
    | .timeout => (st, false)
    | .httpError _ => (st, false)
    | .badBody => (st, false)
    | .body tok ttype ein =>
      let st1 : TokenState :=
        { access_token := tok, token_type := ttype, expires_at := st.expires_at }
      match ein with
      | Option.none => (st1, false)
      | some e => ({ st1 with expires_at := now + e }, tok.isSome)

/-- The refresh condition of network.ensure_valid_token line 113:
`not tm.access_token or current_time >= (tm.expires_at - 300)`. -/
def token_needs_refresh (st : TokenState) (now : Int) : Bool :=
  !truthyOpt st.access_token || decide (st.expires_at - 300 ≤ now)

/-- The token-usability check: the token is usable exactly when
`ensure_valid_token` does not call `refresh_token`. -/
def token_usable (st : TokenState) (now : Int) : Bool :=
  !token_needs_refresh st now

/-- network.ensure_valid_token (lines 100–118): refresh when the token is
absent or within 300 seconds of expiry, otherwise keep the state and
return `True`. -/
def ensure_valid_token (cfg : OAuthConfig) (st : TokenState) (now : Int)
    (resp : TokenResponse) : TokenState × Bool :=
  if token_needs_refresh st now then refresh_token cfg st now resp else (st, true)

/-! ## src/utils/network.py — make_request_with_direct_token

Python object attributes are an explicit name/value map so that attribute
lookup on the singleton can fail the way CPython fails: reading a name that
`__new__` never initialized raises `AttributeError`. -/

/-- Python values stored in the token-manager attribute map. -/
inductive PyVal where
  | none
  | str (s : String)
  | int (n : Int)
deriving DecidableEq, Repr

/-- Python truthiness of a `PyVal`. -/
def pyTruthy : PyVal → Bool
  | .none => false
  | .str s => s != ""
  | .int n => n != 0

/-- Rendering of a `PyVal` in an f-string. -/
def pyValStr : PyVal → String
  | .none => "None"
  | .str s => s
  | .int n => toString n

/-- Process environment variables that the repository mentions. -/
structure EnvVars where
  CLIENT_ID : Option String
  CLIENT_SECRET : Option String
  MERCHANT_ID : Option String
  AUTH_TOKEN : Option String

/-- `os.getenv` result as a `PyVal`. -/
def ofEnv : Option String → PyVal
  | Option.none => .none
  | some s => .str s

/-- The attribute map built by `PayUTokenManager.__new__`
(src/utils/token_manager.py lines 7–18).  Note that no attribute named
`auth_token` is initialized and `env.AUTH_TOKEN` is read nowhere. -/
def PayUTokenManager.new (env : EnvVars) : List (String × PyVal) :=
  [("access_token", .none),
   ("token_type", .none),
   ("expires_at", .int 0),
   ("client_id", ofEnv env.CLIENT_ID),
   ("client_secret", ofEnv env.CLIENT_SECRET),
   ("mid", ofEnv env.MERCHANT_ID)]

/-- CPython attribute lookup: `AttributeError` when the name is absent. -/
def pyGetAttr (attrs : List (String × PyVal)) (name : String) : Except PyErr PyVal :=
  match attrs.lookup name with
  | some v => .ok v
  | Option.none => .error (.attributeError name)

/-- Python dict assignment `d[k] = v` on a key/value list. -/
def setEntry (hs : List (String × String)) (k v : String) : List (String × String) :=
  if (hs.lookup k).isSome then
    hs.map fun p => if p.1 = k then (k, v) else p
  else hs ++ [(k, v)]

/-- Observable outcome of `make_request_with_direct_token` when no exception
escapes: either the function returned `None` (configuration failure), or it
issued the HTTP call with the given headers and returned the dispatcher
result (`Option.none` collapses timeout / non-2xx / undecodable body). -/
inductive DirectOutcome where
  | noData
  | sent (headers : List (String × String)) (response : Option (List (String × JVal)))

/-- network.make_request_with_direct_token (lines 187–228).  `net` is the
oracle for the one outbound HTTP call.  The first statement of the body is
`if not tm.auth_token:`, an attribute read on the singleton. -/
def make_request_with_direct_token (tmAttrs : List (String × PyVal))
    (headers : Option (List (String × String)))
    (net : Option (List (String × JVal))) : Except PyErr DirectOutcome := do
  let token ← pyGetAttr tmAttrs "auth_token"
  if !pyTruthy token then
    return .noData
  let base := match headers with
    | some h => h
    | Option.none => [("Accept", "application/json")]
  let mid ← pyGetAttr tmAttrs "mid"
  let withMid := if pyTruthy mid then setEntry base "mid" (pyValStr mid) else base
  let finalHeaders := setEntry withMid "Authorization" ("Bearer " ++ pyValStr token)
  return .sent finalHeaders net

/-! ## src/tools/payment_link.py

`make_request` (the session-mode dispatcher) collapses every failure to
`None` and otherwise returns the parsed JSON object, so the two outbound
calls that `create_payment_link` can make are oracles in `NetEnv`.  A
`CallLog` records, in order, the directory-search texts and the customer
identities passed to `create_payment_link_request` (the "write" calls). -/

/-- A customer dict built by `parse_customer_response`: the three keys are
always present; values are arbitrary JSON (typically a string or `null`). -/
structure PyCustomer where
  name : JVal
  email : JVal
  phone : JVal

/-- Responses of the (at most two) outbound calls of one
`create_payment_link` run: the customer directory search and the
payment-link creation POST.  `Option.none` is the dispatcher's collapsed
failure value. -/
structure NetEnv where
  searchResponse : Option (List (String × JVal))
  createResponse : Option (List (String × JVal))

/-- Outbound calls recorded during a run. -/
structure CallLog where
  searches : List String
  creates : List (JVal × JVal × JVal)

/-- `d.get(k, default)` on a JSON object's fields. -/
def jGetD (fields : List (String × JVal)) (k : String) (d : JVal) : JVal :=
  (fields.lookup k).getD d

/-- `v.get(k, default)` where `v` must be a dict (`AttributeError` otherwise). -/
def pyDictGet (v : JVal) (k : String) (d : JVal) : Except PyErr JVal :=
  match v with
  | .obj fs => .ok (jGetD fs k d)
  | _ => .error (.attributeError "get")

/-- payment_link.parse_customer_response (lines 26–54).
`"error" in response` tests key membership; `response.get("result", {})`
never raises on a dict; `result.get("customerDetails", [])` raises
`AttributeError` when `result` is not a dict; the list comprehension
iterates `customers` (iterating a non-empty dict or string reaches
`customer.get` on a non-dict and raises; numbers and `None` are not
iterable) and each element's three keys are read with `.get` defaulting to
`None`. -/
def parse_customer_response (fields : List (String × JVal)) :
    Except PyErr (List PyCustomer) := do
  if (fields.lookup "error").isSome then
    return []
  let result := jGetD fields "result" (.obj [])
  let customers ← pyDictGet result "customerDetails" (.arr [])
  match customers with
  | .arr xs =>
    xs.mapM fun x =>
      match x with
      | .obj cf => .ok { name := jGetD cf "name" .null,
                         email := jGetD cf "email" .null,
                         phone := jGetD cf "phone" .null }
      | _ => .error (.attributeError "get")
  | .obj [] => return []
  | .str "" => return []
  | .obj _ => .error (.attributeError "get")
  | .str _ => .error (.attributeError "get")
  | _ => .error (.typeError "customerDetails value is not iterable")

/-- payment_link.fetch_customers (lines 14–23): one dispatcher call; `None`
and the empty dict are falsy and yield `[]`; otherwise the response is
parsed.  (The search text is URL-escaped into the query string; the raw
text is what the log records.) -/
def fetch_customers (net : NetEnv) : Except PyErr (List PyCustomer) :=
  match net.searchResponse with
  | Option.none => .ok []
  | some fields => if fields.isEmpty then .ok [] else parse_customer_response fields

/-- One line of the disambiguation listing (payment_link.py lines 100–105):
`f"{i + 1}. Name: {c['name']}, Email: {mask_email(c['email'])}, Phone:
{mask_phone(c['phone'])}"`, with the f-string fields evaluated left to
right. -/
def customerLine (i : Nat) (c : PyCustomer) : Except PyErr String :=
  match pyMaskEmail c.email with
  | .error e => .error e
  | .ok me =>
    match pyMaskPhone c.phone with
    | .error e => .error e
    | .ok mp =>
      .ok (toString (i + 1) ++ ". Name: " ++ pyStr c.name ++ ", Email: " ++ me
        ++ ", Phone: " ++ mp)

/-- The enumerated list comprehension building the listing's lines, indexed
from `i`; Python evaluates it eagerly left to right, so the first raising
element aborts the whole comprehension. -/
def customerLines (i : Nat) : List PyCustomer → Except PyErr (List String)
  | [] => .ok []
  | c :: rest =>
    match customerLine i c with
    | .error e => .error e
    | .ok line =>
      match customerLines (i + 1) rest with
      | .error e => .error e
      | .ok more => .ok (line :: more)

/-- The multiple-customers message of payment_link.py line 106. -/
def multiMessage (n : Nat) (lines : List String) : String :=
  "Multiple customers found (" ++ toString n ++ " total):\n"
    ++ String.intercalate "\n" lines
    ++ "\n\n Please specify a customer by providing their email or phone number. Instruction: Show full masked email and phone number to end user show that user can understand the relevant information"

/-- The failure message of payment_link.create_payment_link_request. -/
def linkFailMessage : String :=
  "Failed to create payment link. Please check the inputs and try again."

/-- The success formatting of payment_link.create_payment_link_request
(lines 150–162), with the f-string fields evaluated in source order:
`result.get` lookups require `result` to be a dict, and
`mask_phone(phone)` / `mask_email(email)` may raise on the adopted
(possibly null) customer fields. -/
def formatLinkResponse (name phone email : JVal) (result : JVal) :
    Except PyErr String := do
  let pl ← pyDictGet result "paymentLink" (.str "No payment link found")
  let ds ← pyDictGet result "description" (.str "No description found")
  let mp ← pyMaskPhone phone
  let me ← pyMaskEmail email
  let inv ← pyDictGet result "invoiceNumber" (.str "No invoice number found")
  .ok (String.intercalate "\n"
    ["- name: " ++ pyStr name,
     "- paymentLink: " ++ pyStr pl,
     "- description: " ++ pyStr ds,
     "- phone: " ++ mp,
     "- email: " ++ me,
     "- invoiceNumber: " ++ pyStr inv])

/-- Python `v != ""`: `False` exactly for the equal string. -/
def jvalNeEmptyStr : JVal → Bool
  | .str s => s != ""
  | _ => true

/-- payment_link.create_payment_link_request (lines 118–162).  Builds the
request body (lines 128–140), records the write call, then: a falsy
response (`None` or `{}`) or one without a `"result"` key yields the
failure message; otherwise the response is formatted (which may raise).
`amount` is the monetary amount (a float in the source, passed through
verbatim and never interpreted by this code). -/
def create_payment_link_request (net : NetEnv) (amount : Int)
    (description : String) (name phone email : JVal) (log : CallLog) :
    Except PyErr String × CallLog :=
  let _requestBody : List (String × JVal) :=
    [("viaSms", .bool (jvalNeEmptyStr phone)),
     ("viaEmail", .bool (jvalNeEmptyStr email)),
     ("subAmount", .num amount),
     ("description", .str description),
     ("source", .str "payment_link_onedash"),
     ("customer", .obj [("email", email), ("name", name), ("phone", phone)])]
  let log1 : CallLog := ⟨log.searches, log.creates ++ [(name, phone, email)]⟩
  match net.createResponse with
  | Option.none => (.ok linkFailMessage, log1)
  | some data =>
    if data.isEmpty then (.ok linkFailMessage, log1)
    else
      match data.lookup "result" with
      | Option.none => (.ok linkFailMessage, log1)
      | some result => (formatLinkResponse name phone email result, log1)

/-- payment_link.create_payment_link (lines 57–115).
Branch structure of the source:
1. `validate_email(email) or validate_phone(phone)` truthy → create directly
   with the supplied fields;
2. otherwise `name and not email and not phone` → one directory search;
   parse failures propagate; `[]` → create with the supplied fields;
   more than one record → disambiguation listing, no write call;
   exactly one record `c` → `customer_details['email'] = c.get('email',
   email)` and likewise for phone — the parsed dict always contains both
   keys, so the record values (possibly `null`) are adopted verbatim — then
   create;
3. otherwise (e.g. a non-empty but invalid email or phone) → create directly
   with the supplied fields, no search. -/
def create_payment_link (net : NetEnv) (amount : Int) (description : String)
    (name phone email : String) : Except PyErr String × CallLog :=
  if validate_email email || validate_phone phone then
    create_payment_link_request net amount description
      (.str name) (.str phone) (.str email) ⟨[], []⟩
  else if truthyStr name && !truthyStr email && !truthyStr phone then
    let log1 : CallLog := ⟨[name], []⟩
    match fetch_customers net with
    | .error e => (.error e, log1)
    | .ok [] =>
      create_payment_link_request net amount description
        (.str name) (.str phone) (.str email) log1
    | .ok [c] =>
      create_payment_link_request net amount description
        (.str name) c.phone c.email log1
    | .ok customers =>
      match customerLines 0 customers with
      | .error e => (.error e, log1)
      | .ok lines => (.ok (multiMessage customers.length lines), log1)
  else
    create_payment_link_request net amount description
      (.str name) (.str phone) (.str email) ⟨[], []⟩

/-! ## Helper lemmas about `splitAtSign` -/

theorem splitAtSign_ne_nil (l : List Char) : splitAtSign l ≠ [] := by
  induction l with
  | nil => simp [splitAtSign]
  | cons c rest ih =>
    simp only [splitAtSign]
    split
    · simp
    · split
      · simp
      · simp

theorem splitAtSign_single {l x : List Char} (h : splitAtSign l = [x]) : l = x := by
  induction l generalizing x with
  | nil =>
    simp only [splitAtSign, List.cons.injEq, and_true] at h
    exact h
  | cons c rest ih =>
    simp only [splitAtSign] at h
    by_cases hc : c = '@'
    · rw [if_pos hc] at h
      simp only [List.cons.injEq] at h
      exact absurd h.2 (splitAtSign_ne_nil rest)
    · rw [if_neg hc] at h
      cases hs : splitAtSign rest with
      | nil => exact absurd hs (splitAtSign_ne_nil rest)
      | cons g gs =>
        rw [hs] at h
        simp only [List.cons.injEq] at h
        obtain ⟨hx, hgs⟩ := h
        subst hgs
        have : rest = g := ih hs
        subst this
        exact hx.symm ▸ rfl

theorem splitAtSign_pair {l u d : List Char} (h : splitAtSign l = [u, d]) :
    l = u ++ '@' :: d := by
  induction l generalizing u with
  | nil => simp [splitAtSign] at h
  | cons c rest ih =>
    simp only [splitAtSign] at h
    by_cases hc : c = '@'
    · rw [if_pos hc] at h
      simp only [List.cons.injEq] at h
      obtain ⟨hu, hrest⟩ := h
      have : rest = d := splitAtSign_single hrest
      subst this
      rw [← hu, hc]
      rfl
    · rw [if_neg hc] at h
      cases hs : splitAtSign rest with
      | nil => exact absurd hs (splitAtSign_ne_nil rest)
      | cons g gs =>
        rw [hs] at h
        simp only [List.cons.injEq] at h
        obtain ⟨hu, hgs⟩ := h
        have hrest : rest = g ++ '@' :: d := by
          apply ih
          rw [hs, hgs]
        rw [← hu, hrest]
        rfl

theorem contains_atSign (u d : List Char) : (u ++ '@' :: d).contains '@' = true := by
  simp [List.contains, List.elem_iff]

/-! ## Claim C7 — email masking -/

/-- The masking rule for the local part as the specification words it
(§4.4): more than 4 characters — keep the first 2 and the last 2 and replace
the interior by asterisks of matching length; 1–4 characters — keep only the
first character and mask the rest.  Stated independently of `mask_email` for
the refinement comparison. -/
def maskLocalSpec (u : List Char) : List Char :=
  if 4 < u.length then
    u.take 2 ++ List.replicate (u.length - 4) '*' ++ u.drop (u.length - 2)
  else if 1 ≤ u.length then
    u.take 1 ++ List.replicate (u.length - 1) '*'
  else u

/-- C7 (amended): for every input whose `'@'`-split has exactly two parts
(exactly one `'@'`), `mask_email` returns the local part masked by the
specification's rule with the domain untouched; and the two concrete
examples evaluate as the code computes them — in particular
`alice.wonder` has a 12-character local part, so its masked form carries
8 asterisks. -/
theorem C7_mask_email_rule :
    mask_email "alice.wonder@example.com" = .ok "al********er@example.com" ∧
    mask_email "ab@example.com" = .ok "a*@example.com" ∧
    ∀ (email : String) (u d : List Char), splitAtSign email.data = [u, d] →
      mask_email email = .ok (String.mk (maskLocalSpec u ++ '@' :: d)) := by
  refine ⟨by decide, by decide, ?_⟩
  intro email u d h
  have hl : email.data = u ++ '@' :: d := splitAtSign_pair h
  have hc : email.data.contains '@' = true := by rw [hl]; exact contains_atSign u d
  simp only [mask_email, hc, if_true, h]
  by_cases h4 : 4 < u.length
  · rw [if_pos h4]
    simp only [maskLocalSpec, if_pos h4, starRun]
  · rw [if_neg h4]
    by_cases h0 : 0 < u.length
    · rw [if_pos h0]
      have h1 : 1 ≤ u.length := h0
      simp only [maskLocalSpec, if_neg h4, if_pos h1, starRun]
    · rw [if_neg h0]
      have hu : u = [] := by
        cases u with
        | nil => rfl
        | cons a b => exact absurd (Nat.succ_pos _) h0
      subst hu
      have : email = String.mk ('@' :: d) := by
        apply String.ext
        simpa using hl
      rw [this]
      simp [maskLocalSpec]

/-- Witness for C7: the rule applied at a concrete single-`'@'` input. -/
theorem C7_mask_email_rule_witness :
    mask_email "xy@dom.io" =
      .ok (String.mk (maskLocalSpec ['x', 'y'] ++ '@' :: ['d', 'o', 'm', '.', 'i', 'o'])) :=
  C7_mask_email_rule.2.2 "xy@dom.io" ['x', 'y'] ['d', 'o', 'm', '.', 'i', 'o'] (by decide)

/-- C7 counterexample: the claim's concrete example is wrong
(`alice.wonder` is 12 characters, so the interior mask has 8 asterisks, not
6), and an input with two `'@'` makes `mask_email` raise a `ValueError`
instead of returning a masked string. -/
theorem C7_mask_email_counterexample :
    mask_email "alice.wonder@example.com" ≠ .ok "al******er@example.com" ∧
    "alice.wonder".length = 12 ∧
    (mask_email "a@b@c.com").isOk = false ∧
    ("a@b@c.com".data.contains '@') = true := by
  refine ⟨by decide, by decide, by decide, by decide⟩

/-! ## Claim C8 — phone masking -/

/-- C8: `mask_phone` preserves the total length; a phone shorter than 6
characters is returned unmasked; a phone of length at least 6 keeps its
first `len/2 - 2` characters and the characters from position `len/2 + 2`
onward, with the fixed mask `****` in between. -/
theorem C8_mask_phone_rule :
    ∀ phone : String,
      (mask_phone phone).length = phone.length ∧
      (phone.length < 6 → mask_phone phone = phone) ∧
      (6 ≤ phone.length →
        (mask_phone phone).data =
          phone.data.take (phone.length / 2 - 2) ++ ['*', '*', '*', '*']
            ++ phone.data.drop (phone.length / 2 + 2)) := by
  intro phone
  by_cases h : 6 ≤ phone.length
  · refine ⟨?_, fun hlt => absurd h (by omega), fun _ => ?_⟩
    · have hdl : phone.length = phone.data.length := rfl
      simp only [mask_phone, if_pos h, String.length_mk, List.length_append,
        List.length_take, List.length_drop, List.length_cons, List.length_nil]
      simp only [← hdl]
      omega
    · simp [mask_phone, if_pos h]
  · have hlt : phone.length < 6 := by omega
    refine ⟨?_, fun _ => ?_, fun hge => absurd hge h⟩
    · simp [mask_phone, if_neg h]
    · simp [mask_phone, if_neg h]

/-- Witness for C8 at the specification example `9876543210`. -/
theorem C8_mask_phone_rule_witness :
    (mask_phone "9876543210").data =
      ("9876543210" : String).data.take (("9876543210" : String).length / 2 - 2)
        ++ ['*', '*', '*', '*']
        ++ ("9876543210" : String).data.drop (("9876543210" : String).length / 2 + 2) :=
  (C8_mask_phone_rule "9876543210").2.2 (by decide)

/-! ## Claim C9 — phone validation -/

theorem strip_concat_newline (m : List Char) :
    stripDollarNewline (m ++ ['\n']) = m := by
  simp [stripDollarNewline, List.getLast?_concat, List.dropLast_concat]

theorem strip_of_getLast_ne {l : List Char} (h : l.getLast? ≠ some '\n') :
    stripDollarNewline l = l := by
  simp [stripDollarNewline, h]

theorem phoneDigitsMatch_iff {d : List Char} :
    phoneDigitsMatch d = true ↔
      ∃ c cs, d = c :: cs ∧ '1' ≤ c ∧ c ≤ '9' ∧
        (∀ x ∈ cs, isPyDigit x = true) ∧ 9 ≤ cs.length ∧ cs.length ≤ 14 := by
  cases d with
  | nil => simp [phoneDigitsMatch]
  | cons c cs =>
    simp only [phoneDigitsMatch, Bool.and_eq_true, decide_eq_true_iff,
      List.all_eq_true, isDigit19, List.cons.injEq]
    constructor
    · rintro ⟨⟨⟨h19, hall⟩, h9⟩, h14⟩
      exact ⟨c, cs, ⟨rfl, rfl⟩, h19.1, h19.2, hall, h9, h14⟩
    · rintro ⟨c', cs', ⟨rfl, rfl⟩, h1, h9c, hall, h9, h14⟩
      exact ⟨⟨⟨⟨h1, h9c⟩, hall⟩, h9⟩, h14⟩

theorem digits_head_ge_one {c : Char} {cs : List Char}
    (h : phoneDigitsMatch (c :: cs) = true) : '1' ≤ c := by
  obtain ⟨c', cs', heq, h1, -, -, -, -⟩ := phoneDigitsMatch_iff.mp h
  cases heq
  exact h1

theorem phoneCoreMatch_iff {l : List Char} :
    phoneCoreMatch l = true ↔
      ∃ ds, (l = ds ∨ l = '+' :: ds) ∧ phoneDigitsMatch ds = true := by
  cases l with
  | nil =>
    simp only [phoneCoreMatch]
    constructor
    · intro h; exact Bool.noConfusion h
    · rintro ⟨ds, h1 | h1, hd⟩
      · rw [← h1] at hd; exact absurd hd (by simp [phoneDigitsMatch])
      · exact List.noConfusion h1
  | cons c rest =>
    by_cases hc : c = '+'
    · subst hc
      simp only [phoneCoreMatch, if_pos rfl]
      constructor
      · intro hd; exact ⟨rest, Or.inr rfl, hd⟩
      · rintro ⟨ds, h1 | h1, hd⟩
        · rw [← h1] at hd
          have := digits_head_ge_one hd
          exact absurd this (by decide)
        · cases h1; exact hd
    · simp only [phoneCoreMatch, if_neg hc]
      constructor
      · intro hd; exact ⟨c :: rest, Or.inl rfl, hd⟩
      · rintro ⟨ds, h1 | h1, hd⟩
        · rw [← h1] at hd; exact hd
        · cases h1; exact absurd rfl hc

/-- The amended acceptance shape for `validate_phone`: an optional leading
`'+'`, an ASCII digit `1`–`9`, then 9 to 14 further Unicode decimal digits
(category Nd, what `\d` matches) — 10–15 significant digits in total —
optionally followed by one trailing newline (an artifact of `$` under
Python's `re.match`). -/
def PhoneShape (s : String) : Prop :=
  ∃ (core ds : List Char) (c : Char) (cs : List Char),
    (s.data = core ∨ s.data = core ++ ['\n']) ∧
    (core = ds ∨ core = '+' :: ds) ∧
    ds = c :: cs ∧
    '1' ≤ c ∧ c ≤ '9' ∧
    (∀ x ∈ cs, isPyDigit x = true) ∧
    9 ≤ cs.length ∧ cs.length ≤ 14

theorem data_ne_nil_of_ne_empty {s : String} (h : s.data ≠ []) : s ≠ "" := by
  intro he
  apply h
  rw [he]

/-- C9 (amended): `validate_phone` accepts exactly the strings of
`PhoneShape` — an optional leading `'+'`, a nonzero digit, 9–14 further
Unicode decimal digits (so 10–15 significant digits in total), and
optionally one trailing newline. -/
theorem C9_validate_phone_characterization :
    ∀ s : String, validate_phone s = true ↔ PhoneShape s := by
  intro s
  constructor
  · intro h
    have h' : truthyStr s = true ∧ phoneRegexMatch s.data = true := by
      simpa [validate_phone, Bool.and_eq_true] using h
    obtain ⟨-, hm⟩ := h'
    unfold phoneRegexMatch at hm
    by_cases hl : s.data.getLast? = some '\n'
    · obtain ⟨ys, hys⟩ := List.getLast?_eq_some_iff.mp hl
      rw [hys, strip_concat_newline] at hm
      obtain ⟨ds, hcore, hd⟩ := phoneCoreMatch_iff.mp hm
      obtain ⟨c, cs, hds, h1, h9, hall, hlen9, hlen14⟩ := phoneDigitsMatch_iff.mp hd
      exact ⟨ys, ds, c, cs, Or.inr hys, hcore, hds, h1, h9, hall, hlen9, hlen14⟩
    · rw [strip_of_getLast_ne hl] at hm
      obtain ⟨ds, hcore, hd⟩ := phoneCoreMatch_iff.mp hm
      obtain ⟨c, cs, hds, h1, h9, hall, hlen9, hlen14⟩ := phoneDigitsMatch_iff.mp hd
      exact ⟨s.data, ds, c, cs, Or.inl rfl, hcore, hds, h1, h9, hall, hlen9, hlen14⟩
  · rintro ⟨core, ds, c, cs, hdata, hcore, hds, h1, h9, hall, hlen9, hlen14⟩
    have hd : phoneDigitsMatch ds = true :=
      phoneDigitsMatch_iff.mpr ⟨c, cs, hds, h1, h9, hall, hlen9, hlen14⟩
    have hm : phoneCoreMatch core = true := phoneCoreMatch_iff.mpr ⟨ds, hcore, hd⟩
    -- the matched core cannot end in a newline
    have hne : core.getLast? ≠ some '\n' := by
      intro hlast
      obtain ⟨ys, hys⟩ := List.getLast?_eq_some_iff.mp hlast
      have hmem : '\n' ∈ core := by rw [hys]; simp
      have hmem' : '\n' = '+' ∨ '\n' = c ∨ '\n' ∈ cs := by
        rcases hcore with hcd | hcd
        · rw [hcd, hds] at hmem
          rcases List.mem_cons.mp hmem with hh | hh
          · exact Or.inr (Or.inl hh)
          · exact Or.inr (Or.inr hh)
        · rw [hcd, hds] at hmem
          rcases List.mem_cons.mp hmem with hh | hh
          · exact Or.inl hh
          · rcases List.mem_cons.mp hh with hh2 | hh2
            · exact Or.inr (Or.inl hh2)
            · exact Or.inr (Or.inr hh2)
      rcases hmem' with hh | hh | hh
      · exact absurd hh (by decide)
      · rw [← hh] at h1
        exact absurd h1 (by decide)
      · exact absurd (hall '\n' hh) (by decide)
    have hcorene : core ≠ [] := by
      rcases hcore with hcd | hcd <;> rw [hcd, hds] <;> simp
    have hstrip : stripDollarNewline s.data = core := by
      rcases hdata with hsd | hsd
      · rw [hsd]; exact strip_of_getLast_ne hne
      · rw [hsd]; exact strip_concat_newline core
    have hdatane : s.data ≠ [] := by
      rcases hdata with hsd | hsd <;> rw [hsd]
      · exact hcorene
      · simp
    have hne0 : s ≠ "" := data_ne_nil_of_ne_empty hdatane
    have htruthy : truthyStr s = true := by
      simp only [truthyStr]
      exact bne_iff_ne.mpr hne0
    simp only [validate_phone, Bool.and_eq_true, htruthy, true_and,
      phoneRegexMatch, hstrip]
    exact hm

/-- C9 counterexample: `12345678` consists of 8 significant digits with no
leading `'+'` — the claim says such a string passes the check — but
`validate_phone` rejects it (the regex requires 10–15 digits).  For
contrast, a 10-digit string is accepted even when its trailing digits are
non-ASCII decimal digits (here nine Arabic-Indic zeros, U+0660). -/
theorem C9_validate_phone_counterexample :
    validate_phone "12345678" = false ∧
    ("12345678" : String).length = 8 ∧
    ("12345678" : String).data.all isPyDigit = true ∧
    validate_phone "1٠٠٠٠٠٠٠٠٠" = true := by
  refine ⟨by decide, by decide, by decide, by decide⟩

/-! ## Claim C1 — failed refresh and state mutation -/

/-- C1 (amended): a refresh attempt that fails before a JSON object body is
obtained — network timeout, non-2xx HTTP status, or a body that cannot be
decoded as a JSON object — leaves the token state exactly unchanged and
returns `false`.  (A decoded object body is different: see the
counterexample.) -/
theorem C1_failed_refresh_preserves_state :
    ∀ (cfg : OAuthConfig) (st : TokenState) (now : Int) (status : Nat),
      refresh_token cfg st now .timeout = (st, false) ∧
      refresh_token cfg st now (.httpError status) = (st, false) ∧
      refresh_token cfg st now .badBody = (st, false) := by
  intro cfg st now status
  refine ⟨?_, ?_, ?_⟩ <;> simp only [refresh_token] <;> split <;> rfl

/-- C1 counterexample: with valid credentials and a 2xx response whose JSON
object body carries `access_token` and `token_type` but no `expires_in`,
`refresh_token` returns `false` (the refresh failed) yet the observable
access token and token type have been overwritten — `expires_at` alone keeps
its old value — so a failed refresh does partially mutate the state. -/
theorem C1_failed_refresh_mutation_counterexample :
    refresh_token ⟨some "cid", some "secret"⟩
        ⟨some "oldtok", some "Bearer", 5000⟩ 10000
        (.body (some "newtok") (some "Bearer") Option.none) =
      (⟨some "newtok", some "Bearer", 5000⟩, false) ∧
    (⟨some "newtok", some "Bearer", 5000⟩ : TokenState) ≠
      ⟨some "oldtok", some "Bearer", 5000⟩ := by
  refine ⟨by decide, by decide⟩

/-! ## Claim C3 — token-usability boundary -/

/-- C3: the usability check succeeds exactly when an access token is present
(truthy) and `now < expires_at - 300`; at the boundary
`now = expires_at - 300` it fails and `ensure_valid_token` triggers a
refresh. -/
theorem C3_token_usable_iff :
    ∀ (st : TokenState) (now : Int) (cfg : OAuthConfig) (resp : TokenResponse),
      (token_usable st now = true ↔
        (truthyOpt st.access_token = true ∧ now < st.expires_at - 300)) ∧
      token_usable st (st.expires_at - 300) = false ∧
      ensure_valid_token cfg st (st.expires_at - 300) resp =
        refresh_token cfg st (st.expires_at - 300) resp := by
  intro st now cfg resp
  refine ⟨?_, ?_, ?_⟩
  · simp only [token_usable, token_needs_refresh, Bool.not_or, Bool.not_not,
      Bool.and_eq_true, Bool.not_eq_true', decide_eq_false_iff_not, not_le]
  · simp [token_usable, token_needs_refresh]
  · simp [ensure_valid_token, token_needs_refresh]

/-! ## Claim C2 — static-token mode -/

/-- C2 (code bug): for every environment — whether or not `AUTH_TOKEN` is
set — `make_request_with_direct_token` raises `AttributeError` on its very
first statement (`if not tm.auth_token:`), because `PayUTokenManager.__new__`
never initializes an attribute named `auth_token` and the `AUTH_TOKEN`
environment variable is read nowhere.  No configuration check, header
injection, or network call is ever reached. -/
theorem C2_direct_token_attribute_error :
    ∀ (env : EnvVars) (headers : Option (List (String × String)))
      (net : Option (List (String × JVal))),
      make_request_with_direct_token (PayUTokenManager.new env) headers net =
        .error (.attributeError "auth_token") := by
  intro env headers net
  rfl

/-! ## Helper lemmas for the customer resolver -/

theorem JVal.isNull_iff {v : JVal} : v.isNull = true ↔ v = .null := by
  cases v <;> simp [JVal.isNull]

/-- Both masked fields of a listing line are computable without an
exception. -/
def lineFieldsOk (c : PyCustomer) : Bool :=
  (pyMaskEmail c.email).isOk && (pyMaskPhone c.phone).isOk

/-- Whatever the create-call response, `create_payment_link_request` appends
exactly one write-call record and leaves the search log unchanged. -/
theorem create_request_log (net : NetEnv) (amount : Int) (description : String)
    (name phone email : JVal) (log : CallLog) :
    (create_payment_link_request net amount description name phone email log).2 =
      ⟨log.searches, log.creates ++ [(name, phone, email)]⟩ := by
  simp only [create_payment_link_request]
  cases net.createResponse with
  | none => rfl
  | some data =>
    by_cases hd : data.isEmpty
    · simp [hd]
    · simp only [if_neg hd]
      cases data.lookup "result" with
      | none => rfl
      | some r => rfl

theorem customerLine_ok {c : PyCustomer} (h : lineFieldsOk c = true) (i : Nat) :
    ∃ rest, customerLine i c = .ok (toString (i + 1) ++ ". Name: " ++ rest) := by
  rw [lineFieldsOk, Bool.and_eq_true] at h
  cases hme : pyMaskEmail c.email with
  | error e => rw [hme] at h; exact absurd h.1 (by simp [Except.isOk, Except.toBool])
  | ok me =>
    cases hmp : pyMaskPhone c.phone with
    | error e => rw [hmp] at h; exact absurd h.2 (by simp [Except.isOk, Except.toBool])
    | ok mp =>
      refine ⟨pyStr c.name ++ ", Email: " ++ me ++ ", Phone: " ++ mp, ?_⟩
      simp [customerLine, hme, hmp, String.append_assoc]

theorem customerLines_ok :
    ∀ (cs : List PyCustomer) (i : Nat), cs.all lineFieldsOk = true →
      ∃ ls, customerLines i cs = .ok ls ∧ ls.length = cs.length ∧
        ∀ j (hj : j < ls.length),
          ∃ rest, ls.get ⟨j, hj⟩ = toString (i + j + 1) ++ ". Name: " ++ rest := by
  intro cs
  induction cs with
  | nil =>
    intro i _
    exact ⟨[], rfl, rfl, by intro j hj; simp at hj⟩
  | cons c rest ih =>
    intro i h
    rw [List.all_cons, Bool.and_eq_true] at h
    obtain ⟨r0, hline⟩ := customerLine_ok h.1 i
    obtain ⟨ls, hls, hlen, hnum⟩ := ih (i + 1) h.2
    refine ⟨(toString (i + 1) ++ ". Name: " ++ r0) :: ls, ?_, by simp [hlen], ?_⟩
    · simp [customerLines, hline, hls]
    · intro j hj
      cases j with
      | zero => exact ⟨r0, by simp⟩
      | succ k =>
        have hk : k < ls.length := by simpa using hj
        obtain ⟨r, hr⟩ := hnum k hk
        refine ⟨r, ?_⟩
        have harg : i + 1 + k + 1 = i + (k + 1) + 1 := by omega
        simpa [harg] using hr

theorem customerLines_error :
    ∀ (cs : List PyCustomer) (i : Nat),
      cs.any (fun c => c.email.isNull || c.phone.isNull) = true →
      ∃ e, customerLines i cs = .error e := by
  intro cs
  induction cs with
  | nil => intro i h; simp at h
  | cons c rest ih =>
    intro i h
    cases hline : customerLine i c with
    | error e => exact ⟨e, by simp [customerLines, hline]⟩
    | ok line =>
      have hnotnull : ¬ (c.email = .null ∨ c.phone = .null) := by
        rintro (hnull | hnull)
        · rw [customerLine, hnull] at hline
          simp [pyMaskEmail] at hline
        · rw [customerLine, hnull] at hline
          cases hme : pyMaskEmail c.email with
          | error e => rw [hme] at hline; exact Except.noConfusion hline
          | ok me => rw [hme] at hline; simp [pyMaskPhone] at hline
      rw [List.any_cons, Bool.or_eq_true] at h
      rcases h with hc | hrest
      · rw [Bool.or_eq_true, JVal.isNull_iff, JVal.isNull_iff] at hc
        exact absurd hc hnotnull
      · obtain ⟨e, he⟩ := ih (i + 1) hrest
        exact ⟨e, by simp [customerLines, hline, he]⟩

/-! ## Claim C4 — single-match adoption -/

/-- C4 (amended): when the search path runs (non-empty name, empty email and
phone) and exactly one customer record is returned, the resolver adopts the
record's email and phone verbatim — including a `null` field, since the
parsed record always contains both keys so the `.get` fallback to the
originally supplied value never applies — and invokes link creation with
that identity. -/
theorem C4_single_match_adoption :
    ∀ (net : NetEnv) (amount : Int) (description name : String) (c : PyCustomer),
      truthyStr name = true →
      fetch_customers net = .ok [c] →
      create_payment_link net amount description name "" "" =
        create_payment_link_request net amount description
          (.str name) c.phone c.email ⟨[name], []⟩ ∧
      (create_payment_link net amount description name "" "").2.creates =
        [(JVal.str name, c.phone, c.email)] := by
  intro net amount description name c hname hfetch
  have hv : (validate_email "" || validate_phone "") = false := by decide
  have ht : truthyStr "" = false := by decide
  have main : create_payment_link net amount description name "" "" =
      create_payment_link_request net amount description
        (.str name) c.phone c.email ⟨[name], []⟩ := by
    simp only [create_payment_link, hv, ht, hname, Bool.not_false, Bool.and_true,
      Bool.true_and, Bool.and_self, hfetch]
    simp
  refine ⟨main, ?_⟩
  rw [main, create_request_log]
  rfl

/-- Witness for C4 at a concrete one-record directory response. -/
theorem C4_single_match_adoption_witness :
    (create_payment_link
        { searchResponse := some [("result", .obj [("customerDetails", .arr
            [ .obj [("name", .str "Bob"), ("email", .str "bob@mail.io"),
                    ("phone", .str "9876543210")] ])])],
          createResponse := Option.none }
        100 "d" "Bob" "" "").2.creates =
      [(JVal.str "Bob", JVal.str "9876543210", JVal.str "bob@mail.io")] :=
  (C4_single_match_adoption
    { searchResponse := some [("result", .obj [("customerDetails", .arr
        [ .obj [("name", .str "Bob"), ("email", .str "bob@mail.io"),
                ("phone", .str "9876543210")] ])])],
      createResponse := Option.none }
    100 "d" "Bob" ⟨.str "Bob", .str "bob@mail.io", .str "9876543210"⟩
    (by decide) rfl).2

/-- C4 counterexample: a single matched record whose email is JSON `null`.
The claim requires falling back to the originally supplied email (the empty
string); the code instead adopts `null` and passes it to link creation. -/
theorem C4_single_match_counterexample :
    create_payment_link
        { searchResponse := some [("result", .obj [("customerDetails", .arr
            [ .obj [("name", .str "Bob"), ("email", .null),
                    ("phone", .str "9876543210")] ])])],
          createResponse := Option.none }
        100 "d" "Bob" "" "" =
      (.ok linkFailMessage,
        ⟨["Bob"], [(JVal.str "Bob", JVal.str "9876543210", JVal.null)]⟩) ∧
    JVal.null ≠ JVal.str "" :=
  ⟨rfl, fun h => JVal.noConfusion h⟩

/-! ## Claim C5 — multiple matches -/

/-- C5 (amended): when the search path runs and at least two records are
returned, all of whose email and phone fields mask without an exception, no
link-creation call is issued (the write log stays empty) and the result is
the disambiguation message over exactly `N` numbered lines, the `j`-th line
numbered `j + 1`. -/
theorem C5_multiple_matches_listing :
    ∀ (net : NetEnv) (amount : Int) (description name : String)
      (cs : List PyCustomer),
      truthyStr name = true →
      fetch_customers net = .ok cs →
      2 ≤ cs.length →
      cs.all lineFieldsOk = true →
      ∃ ls, customerLines 0 cs = .ok ls ∧ ls.length = cs.length ∧
        (∀ j (hj : j < ls.length),
          ∃ rest, ls.get ⟨j, hj⟩ = toString (j + 1) ++ ". Name: " ++ rest) ∧
        create_payment_link net amount description name "" "" =
          (.ok (multiMessage cs.length ls), ⟨[name], []⟩) := by
  intro net amount description name cs hname hfetch hlen hmask
  obtain ⟨ls, hls, hlslen, hnum⟩ := customerLines_ok cs 0 hmask
  refine ⟨ls, hls, hlslen, ?_, ?_⟩
  · intro j hj
    obtain ⟨r, hr⟩ := hnum j hj
    exact ⟨r, by simpa using hr⟩
  · have hv : (validate_email "" || validate_phone "") = false := by decide
    have ht : truthyStr "" = false := by decide
    rcases cs with _ | ⟨a, _ | ⟨b, rest⟩⟩
    · simp at hlen
    · simp at hlen
    · simp only [create_payment_link, hv, ht, hname, Bool.not_false, Bool.and_true,
        Bool.true_and, Bool.and_self, hfetch, hls]
      simp

/-- Witness for C5 at a concrete two-record directory response. -/
theorem C5_multiple_matches_listing_witness :
    ∃ ls, customerLines 0
        [⟨.str "Ann", .str "ann.smith@mail.com", .str "9876543210"⟩,
         ⟨.str "Rob", .str "rob@mail.com", .str "9123456789"⟩] = .ok ls ∧
      ls.length = List.length
        [⟨.str "Ann", .str "ann.smith@mail.com", .str "9876543210"⟩,
         (⟨.str "Rob", .str "rob@mail.com", .str "9123456789"⟩ : PyCustomer)] ∧
      (∀ j (hj : j < ls.length),
        ∃ rest, ls.get ⟨j, hj⟩ = toString (j + 1) ++ ". Name: " ++ rest) ∧
      create_payment_link
          { searchResponse := some [("result", .obj [("customerDetails", .arr
              [ .obj [("name", .str "Ann"), ("email", .str "ann.smith@mail.com"),
                      ("phone", .str "9876543210")],
                .obj [("name", .str "Rob"), ("email", .str "rob@mail.com"),
                      ("phone", .str "9123456789")] ])])],
            createResponse := Option.none }
          100 "d" "Ann" "" "" =
        (.ok (multiMessage (List.length
          [⟨.str "Ann", .str "ann.smith@mail.com", .str "9876543210"⟩,
           (⟨.str "Rob", .str "rob@mail.com", .str "9123456789"⟩ : PyCustomer)]) ls),
          ⟨["Ann"], []⟩) :=
  C5_multiple_matches_listing
    { searchResponse := some [("result", .obj [("customerDetails", .arr
        [ .obj [("name", .str "Ann"), ("email", .str "ann.smith@mail.com"),
                ("phone", .str "9876543210")],
          .obj [("name", .str "Rob"), ("email", .str "rob@mail.com"),
                ("phone", .str "9123456789")] ])])],
      createResponse := Option.none }
    100 "d" "Ann"
    [⟨.str "Ann", .str "ann.smith@mail.com", .str "9876543210"⟩,
     ⟨.str "Rob", .str "rob@mail.com", .str "9123456789"⟩]
    (by decide) rfl (by decide) (by decide)

/-- C5 counterexample: two records, the second with a `null` email.  The
claim promises a returned listing with exactly 2 numbered lines; the code
instead raises while masking the `null` field (still making no write
call). -/
theorem C5_multiple_matches_counterexample :
    create_payment_link
        { searchResponse := some [("result", .obj [("customerDetails", .arr
            [ .obj [("name", .str "Ann"), ("email", .str "ann.smith@mail.com"),
                    ("phone", .str "9876543210")],
              .obj [("name", .str "Bob"), ("email", .null),
                    ("phone", .str "9123456789")] ])])],
          createResponse := Option.none }
        100 "d" "Ann" "" "" =
      (.error (.typeError "argument of type NoneType is not iterable"),
        ⟨["Ann"], []⟩) := rfl

/-! ## Claim C6 — when the directory search happens -/

/-- C6 (amended): assuming neither the supplied email nor the supplied phone
validates, the resolver issues exactly one directory-search call (keyed by
the name) iff the name is non-empty and both email and phone are empty
strings; in every other case — in particular a non-empty but invalid email
or phone — it issues none. -/
theorem C6_search_exactly_when_empty :
    ∀ (net : NetEnv) (amount : Int) (description name phone email : String),
      validate_email email = false →
      validate_phone phone = false →
      (create_payment_link net amount description name phone email).2.searches =
        (if truthyStr name && !truthyStr email && !truthyStr phone
         then [name] else []) := by
  intro net amount description name phone email he hp
  simp only [create_payment_link, he, hp, Bool.or_self]
  by_cases h2 : (truthyStr name && !truthyStr email && !truthyStr phone) = true
  · simp only [h2, if_true]
    cases hf : fetch_customers net with
    | error e => simp [hf]
    | ok cs =>
      rcases cs with _ | ⟨a, _ | ⟨b, rest⟩⟩
      · simp [hf, create_request_log]
      · simp [hf, create_request_log]
      · cases hcl : customerLines 0 (a :: b :: rest) with
        | error e => simp [hf, hcl]
        | ok ls => simp [hf, hcl]
  · have h2f : (truthyStr name && !truthyStr email && !truthyStr phone) = false :=
      Bool.eq_false_iff.mpr h2
    simp only [h2f, if_false]
    simp [create_request_log]

/-- Witness for C6: empty email and phone with a non-empty name produce one
search keyed by the name. -/
theorem C6_search_exactly_when_empty_witness :
    (create_payment_link { searchResponse := Option.none, createResponse := Option.none }
        100 "d" "Carol" "" "").2.searches =
      (if truthyStr "Carol" && !truthyStr "" && !truthyStr ""
       then ["Carol"] else []) :=
  C6_search_exactly_when_empty
    { searchResponse := Option.none, createResponse := Option.none }
    100 "d" "Carol" "" "" (by decide) (by decide)

/-- C6 counterexample: name present and a non-empty email that fails
validation — the claim requires exactly one directory search, but the code
performs none and goes straight to link creation. -/
theorem C6_search_counterexample :
    (create_payment_link { searchResponse := Option.none, createResponse := Option.none }
        100 "d" "Alice" "" "bademail").2.searches = [] ∧
    validate_email "bademail" = false ∧
    truthyStr "bademail" = true ∧
    validate_phone "" = false ∧
    truthyStr "Alice" = true := by
  refine ⟨rfl, by decide, by decide, by decide, by decide⟩

/-! ## Claim C10 — null fields in the multiple-match branch -/

/-- C10: when the search path runs, at least two records are returned, and
some record's email or phone is JSON `null`, the multiple-match branch
raises an exception (masking is applied to the `null` field) instead of
returning the numbered listing — and still makes no write call. -/
theorem C10_null_field_raises :
    ∀ (net : NetEnv) (amount : Int) (description name : String)
      (cs : List PyCustomer),
      truthyStr name = true →
      fetch_customers net = .ok cs →
      2 ≤ cs.length →
      cs.any (fun c => c.email.isNull || c.phone.isNull) = true →
      ∃ e, create_payment_link net amount description name "" "" =
        (.error e, ⟨[name], []⟩) := by
  intro net amount description name cs hname hfetch hlen hany
  obtain ⟨e, he⟩ := customerLines_error cs 0 hany
  have hv : (validate_email "" || validate_phone "") = false := by decide
  have ht : truthyStr "" = false := by decide
  rcases cs with _ | ⟨a, _ | ⟨b, rest⟩⟩
  · simp at hlen
  · simp at hlen
  · refine ⟨e, ?_⟩
    simp only [create_payment_link, hv, ht, hname, Bool.not_false, Bool.and_true,
      Bool.true_and, Bool.and_self, hfetch, he]
    simp

/-- Witness for C10 at a concrete two-record response with a `null` phone. -/
theorem C10_null_field_raises_witness :
    ∃ e, create_payment_link
        { searchResponse := some [("result", .obj [("customerDetails", .arr
            [ .obj [("name", .str "Ann"), ("email", .str "ann.smith@mail.com"),
                    ("phone", .null)],
              .obj [("name", .str "Rob"), ("email", .str "rob@mail.com"),
                    ("phone", .str "9123456789")] ])])],
          createResponse := Option.none }
        100 "d" "Ann" "" "" =
      (.error e, ⟨["Ann"], []⟩) :=
  C10_null_field_raises
    { searchResponse := some [("result", .obj [("customerDetails", .arr
        [ .obj [("name", .str "Ann"), ("email", .str "ann.smith@mail.com"),
                ("phone", .null)],
          .obj [("name", .str "Rob"), ("email", .str "rob@mail.com"),
                ("phone", .str "9123456789")] ])])],
      createResponse := Option.none }
    100 "d" "Ann"
    [⟨.str "Ann", .str "ann.smith@mail.com", .null⟩,
     ⟨.str "Rob", .str "rob@mail.com", .str "9123456789"⟩]
    (by decide) rfl (by decide) (by decide)

end PayU
